import Mathlib

/-!
Verification development for the OTC swap client core (OTCClient):
the expiry policy, the transaction submitter (createOrder, fillOrder,
cancelOrder, cleanupExpiredOrders), and the event-log aggregator
(getActiveOrders).

Shallow embedding conventions:
- Addresses and token references are strings, as in the source
  (case-sensitive comparison with ===, case-insensitive with toLowerCase).
- Ledger-assigned order identifiers are bigints in the source; the source
  converts them with .toString() before set membership and with Number()
  in projections.  Decimal conversion is injective, so identifiers are
  modelled directly as Nat and membership as Nat equality.
- bigint amounts are modelled as Int (a JS bigint can be negative).
- Each network interaction is recorded in an explicit trace of Call
  values; the environment (signer, read results, transaction receipts)
  is passed in as data, so every operation is a pure function of its
  inputs and the environment.
- A thrown Error is an Except.error carrying the message string; the
  catch blocks of the source prepend their context prefix, which is
  reproduced verbatim.
-/

namespace OTC

abbrev Address := String

/-- ethers.ZeroAddress. -/
def ZeroAddress : Address := "0x0000000000000000000000000000000000000000"

/-- ORDER_EXPIRY fallback: 7 days in seconds (source literal 7 * 24 * 60 * 60). -/
def ORDER_EXPIRY : Nat := 7 * 24 * 60 * 60

/-- GRACE_PERIOD fallback: 7 days in seconds (source literal 7 * 24 * 60 * 60). -/
def GRACE_PERIOD : Nat := 7 * 24 * 60 * 60

/-- Result of getOrderExpiryInfo: the two duration constants in seconds. -/
structure ExpiryInfo where
  orderExpiry : Nat
  gracePeriod : Nat
deriving DecidableEq, Repr

/-- getOrderExpiryInfo: reads ORDER_EXPIRY and GRACE_PERIOD from the
contract; on any failure falls back to the 7-day defaults.  The fetch
outcome is the parameter: some info when both reads succeed, none on
failure. -/
def getOrderExpiryInfo (fetched : Option ExpiryInfo) : ExpiryInfo :=
  fetched.getD ⟨7 * 24 * 60 * 60, 7 * 24 * 60 * 60⟩

/-- isOrderExpired: now is strictly past timestamp + orderExpiry. -/
def isOrderExpired (fetched : Option ExpiryInfo) (timestamp now : Nat) : Bool :=
  now > timestamp + (getOrderExpiryInfo fetched).orderExpiry

/-- isInGracePeriod: now is strictly past the lifetime end and at or
before the lifetime + grace end. -/
def isInGracePeriod (fetched : Option ExpiryInfo) (timestamp now : Nat) : Bool :=
  let info := getOrderExpiryInfo fetched
  now > timestamp + info.orderExpiry &&
    now ≤ timestamp + info.orderExpiry + info.gracePeriod

/-- An OrderCreated event record, with the argument fields the client reads. -/
structure CreatedEvent where
  orderId : Nat
  maker : Address
  taker : Address
  sellToken : Address
  sellAmount : Int
  buyToken : Address
  buyAmount : Int
  timestamp : Nat
  orderCreationFee : Int
deriving DecidableEq, Repr

/-- An OrderFilled, OrderCanceled or OrderCleanedUp event record: only the
orderId argument is read by getActiveOrders. -/
structure OrderIdEvent where
  orderId : Nat
deriving DecidableEq, Repr

/-- A RetryOrder event record: getActiveOrders reads the oldOrderId argument. -/
structure RetryStreamEvent where
  oldOrderId : Nat
  newOrderId : Nat
deriving DecidableEq, Repr

/-- The five event streams returned by the five queryFilter calls of
getActiveOrders over the requested block range. -/
structure Streams where
  created : List CreatedEvent
  filled : List OrderIdEvent
  canceled : List OrderIdEvent
  cleaned : List OrderIdEvent
  retried : List RetryStreamEvent
deriving Repr

/-- One leg of an order: a token reference and an amount. -/
structure Leg where
  token : Address
  amount : Int
deriving DecidableEq, Repr

/-- The Order shape produced by getActiveOrders. -/
structure Order where
  orderId : Nat
  maker : Address
  taker : Address
  sell : Leg
  buy : Leg
  createdAt : Nat
  orderCreationFee : Int
  isActive : Bool
deriving DecidableEq, Repr

/-- The pagination placeholder returned by getActiveOrders. -/
structure Pagination where
  hasMore : Bool
  nextOffset : Nat
deriving DecidableEq, Repr

/-- The value returned by getActiveOrders. -/
structure ActiveOrdersResult where
  orders : List Order
  pagination : Pagination
deriving Repr

/-- The optional filters of getActiveOrders (fromBlock and toBlock select the
queried block range and are absorbed into the Streams argument). -/
structure GetActiveOrdersParams where
  makerAddress : Option Address
  sellToken : Option Address
  buyToken : Option Address
deriving Repr

/-- The JS String.prototype.toLowerCase used by the address and token
filters, modelled character-wise over the string contents. -/
def toLowerCase (s : String) : String := ⟨s.data.map Char.toLower⟩

/-- The set of orderId values of the fill stream (the source collects the
decimal strings of the bigint ids in a JS Set; decimal conversion is
injective, so membership is modelled on the numbers). -/
def filledIds (s : Streams) : List Nat := s.filled.map (fun e => e.orderId)

/-- The set of orderId values of the cancellation stream. -/
def canceledIds (s : Streams) : List Nat := s.canceled.map (fun e => e.orderId)

/-- The set of orderId values of the cleanup stream. -/
def cleanedIds (s : Streams) : List Nat := s.cleaned.map (fun e => e.orderId)

/-- The set of oldOrderId values of the retry stream. -/
def retriedOldIds (s : Streams) : List Nat := s.retried.map (fun e => e.oldOrderId)

/-- The filter predicate of getActiveOrders on a creation event: the id is in
none of the four terminal-id sets and the order is not expired at
currentTimestamp (source: ORDER_EXPIRY literal of 7 days). -/
def activeCheck (s : Streams) (currentTimestamp : Nat) (e : CreatedEvent) : Bool :=
  let isExpired := decide (currentTimestamp > e.timestamp + ORDER_EXPIRY)
  !(filledIds s).contains e.orderId &&
  !(canceledIds s).contains e.orderId &&
  !(cleanedIds s).contains e.orderId &&
  !(retriedOldIds s).contains e.orderId &&
  !isExpired

/-- The map step of getActiveOrders: project a creation event to an Order,
with isActive set to the literal true. -/
def projectOrder (e : CreatedEvent) : Order :=
  { orderId := e.orderId
    maker := e.maker
    taker := e.taker
    sell := { token := e.sellToken, amount := e.sellAmount }
    buy := { token := e.buyToken, amount := e.buyAmount }
    createdAt := e.timestamp
    orderCreationFee := e.orderCreationFee
    isActive := true }

/-- getActiveOrders: filter the creation stream through activeCheck, project
to Orders, then apply the optional maker and token filters with
case-insensitive (toLowerCase) comparison.  Pagination is the constant
no-more-pages placeholder. -/
def getActiveOrders (s : Streams) (currentTimestamp : Nat)
    (params : GetActiveOrdersParams) : ActiveOrdersResult :=
  let activeOrders :=
    (s.created.filter (activeCheck s currentTimestamp)).map projectOrder
  let activeOrders :=
    match params.makerAddress with
    | some makerAddress =>
        activeOrders.filter (fun o =>
          toLowerCase o.maker == toLowerCase makerAddress)
    | none => activeOrders
  let activeOrders :=
    match params.sellToken with
    | some sellToken =>
        activeOrders.filter (fun o =>
          toLowerCase o.sell.token == toLowerCase sellToken)
    | none => activeOrders
  let activeOrders :=
    match params.buyToken with
    | some buyToken =>
        activeOrders.filter (fun o =>
          toLowerCase o.buy.token == toLowerCase buyToken)
    | none => activeOrders
  { orders := activeOrders
    pagination := { hasMore := false, nextOffset := 0 } }

/-- A network interaction issued by a transaction-submitter operation, in
issue order.  The approve spender is always the OTC contract and is omitted. -/
inductive Call where
  | feeRead
  | approve (token : Address) (amount : Int)
  | submitCreate (taker : Address) (sellToken : Address) (sellAmount : Int)
      (buyToken : Address) (buyAmount : Int) (value : Int)
  | ordersRead (orderId : Nat)
  | balanceRead (token : Address) (owner : Address)
  | submitFill (orderId : Nat)
  | submitCancel (orderId : Nat)
  | submitCleanup
deriving DecidableEq, Repr

/-- The argument record of an emitted event log.  JS log args are a dynamic
record; the fields an absent event kind never reads default to zero values. -/
structure LogArgs where
  orderId : Nat := 0
  maker : Address := ""
  taker : Address := ""
  sellToken : Address := ""
  sellAmount : Int := 0
  buyToken : Address := ""
  buyAmount : Int := 0
  timestamp : Nat := 0
  orderCreationFee : Int := 0
  reason : String := ""
  oldOrderId : Nat := 0
  newOrderId : Nat := 0
  tries : Nat := 0
  recipient : Address := ""
  amount : Int := 0
deriving DecidableEq, Repr

/-- An emitted event log: the fragment name and the decoded args. -/
structure EventLog where
  name : String
  args : LogArgs
deriving DecidableEq, Repr

/-- A transaction receipt as read by the client. -/
structure Receipt where
  hash : String
  blockNumber : Nat
  logs : List EventLog
deriving DecidableEq, Repr

/-- OrderParams: the createOrder input (taker omitted defaults to the zero
address). -/
structure OrderParams where
  taker : Option Address
  sellToken : Address
  sellAmount : Int
  buyToken : Address
  buyAmount : Int
deriving DecidableEq, Repr

/-- FillOrderParams: the fillOrder input. -/
structure FillOrderParams where
  orderId : Nat
  buyToken : Address
  buyAmount : Int
deriving DecidableEq, Repr

/-- The order record returned by the contract.orders read, restricted to the
fields the client reads. -/
structure OrderRecord where
  maker : Address
  taker : Address
  timestamp : Nat
  isActive : Bool
deriving DecidableEq, Repr

/-- The parameter validation sequence of createOrder, in source order; the
message of the first violated rule, or none when all pass. -/
def validateOrderParams (p : OrderParams) : Option String :=
  if p.sellToken == ZeroAddress then some "Invalid sell token"
  else if p.buyToken == ZeroAddress then some "Invalid buy token"
  else if p.sellToken == p.buyToken then some "Cannot swap same token"
  else if p.sellAmount ≤ 0 then some "Invalid sell amount"
  else if p.buyAmount ≤ 0 then some "Invalid buy amount"
  else none

/-- The environment of a createOrder run: the connected signer, and the
outcomes of the fee read, the approve transaction (submit plus wait) and the
create transaction (submit plus wait). -/
structure CreateEnv where
  signer : Option Address
  orderCreationFee : Except String Int
  approveResult : Except String Unit
  createResult : Except String Receipt
deriving Repr

/-- The creation block of a createOrder result. -/
structure CreationInfo where
  timestamp : Nat
  blockNumber : Nat
  fee : Int
deriving DecidableEq, Repr

/-- The value returned by createOrder. -/
structure CreateOrderResult where
  orderId : Nat
  txHash : String
  maker : Address
  creation : CreationInfo
deriving DecidableEq, Repr

/-- createOrder: signer check, fee read, parameter validation, sell-token
approval, create submission with the fee attached as value, and extraction of
the single OrderCreated event.  Returns the outcome together with the trace
of network calls issued. -/
def createOrder (env : CreateEnv) (params : OrderParams) :
    Except String CreateOrderResult × List Call :=
  match env.signer with
  | none => (.error "No signer connected", [])
  | some _ =>
    let taker := params.taker.getD ZeroAddress
    match env.orderCreationFee with
    | .error e => (.error ("Failed to create order: " ++ e), [Call.feeRead])
    | .ok fee =>
      let _minFee := fee * 90 / 100
      let _maxFee := fee * 150 / 100
      match validateOrderParams params with
      | some msg => (.error ("Failed to create order: " ++ msg), [Call.feeRead])
      | none =>
        let trace := [Call.feeRead, Call.approve params.sellToken params.sellAmount]
        match env.approveResult with
        | .error e => (.error ("Failed to create order: " ++ e), trace)
        | .ok _ =>
          let trace := trace ++ [Call.submitCreate taker params.sellToken
            params.sellAmount params.buyToken params.buyAmount fee]
          match env.createResult with
          | .error e => (.error ("Failed to create order: " ++ e), trace)
          | .ok receipt =>
            match receipt.logs.find? (fun l => l.name == "OrderCreated") with
            | none =>
                (.error "Failed to create order: OrderCreated event not found", trace)
            | some event =>
                (.ok { orderId := event.args.orderId
                       txHash := receipt.hash
                       maker := event.args.maker
                       creation := { timestamp := event.args.timestamp
                                     blockNumber := receipt.blockNumber
                                     fee := event.args.orderCreationFee } }, trace)

/-- The environment of a fillOrder run: the connected signer, the orders read
outcome, the current time, the caller balance of the buy token, and the
outcomes of the approve and fill transactions. -/
structure FillEnv where
  signer : Option Address
  orderRead : Option OrderRecord
  now : Nat
  balance : Int
  approveResult : Except String Unit
  fillResult : Except String Receipt
deriving Repr

/-- The fill block of a fillOrder result. -/
structure FillInfo where
  timestamp : Nat
  blockNumber : Nat
deriving DecidableEq, Repr

/-- The value returned by fillOrder. -/
structure FillOrderResult where
  orderId : Nat
  txHash : String
  taker : Address
  fill : FillInfo
deriving DecidableEq, Repr

/-- fillOrder: signer check, order read, active and expiry checks, taker
restriction check, balance pre-flight, buy-token approval, fill submission,
and extraction of the single OrderFilled event.  The expiry check uses the
source literal of 7 days. -/
def fillOrder (env : FillEnv) (params : FillOrderParams) :
    Except String FillOrderResult × List Call :=
  match env.signer with
  | none => (.error "No signer connected", [])
  | some signerAddress =>
    let trace := [Call.ordersRead params.orderId]
    match env.orderRead with
    | none => (.error "Failed to fill order: Order does not exist", trace)
    | some order =>
      if !order.isActive then
        (.error "Failed to fill order: Order is not active", trace)
      else if env.now > order.timestamp + 7 * 24 * 60 * 60 then
        (.error "Failed to fill order: Order has expired", trace)
      else if order.taker != ZeroAddress && order.taker != signerAddress then
        (.error "Failed to fill order: Not authorized to fill this order", trace)
      else
        let trace := trace ++ [Call.balanceRead params.buyToken signerAddress]
        if env.balance < params.buyAmount then
          (.error "Failed to fill order: Insufficient balance for buy token", trace)
        else
          let trace := trace ++ [Call.approve params.buyToken params.buyAmount]
          match env.approveResult with
          | .error e => (.error ("Failed to fill order: " ++ e), trace)
          | .ok _ =>
            let trace := trace ++ [Call.submitFill params.orderId]
            match env.fillResult with
            | .error e => (.error ("Failed to fill order: " ++ e), trace)
            | .ok receipt =>
              match receipt.logs.find? (fun l => l.name == "OrderFilled") with
              | none =>
                  (.error "Failed to fill order: OrderFilled event not found", trace)
              | some event =>
                  (.ok { orderId := params.orderId
                         txHash := receipt.hash
                         taker := event.args.taker
                         fill := { timestamp := event.args.timestamp
                                   blockNumber := receipt.blockNumber } }, trace)

/-- The environment of a cancelOrder run. -/
structure CancelEnv where
  signer : Option Address
  orderRead : Option OrderRecord
  now : Nat
  cancelResult : Except String Receipt
deriving Repr

/-- The cancellation block of a cancelOrder result. -/
structure CancellationInfo where
  timestamp : Nat
  blockNumber : Nat
deriving DecidableEq, Repr

/-- The value returned by cancelOrder. -/
structure CancelOrderResult where
  orderId : Nat
  txHash : String
  cancellation : CancellationInfo
deriving DecidableEq, Repr

/-- cancelOrder: signer check, order read, maker check, grace-deadline check
against the source literal of 14 days past creation, cancel submission, and
extraction of the single OrderCanceled event. -/
def cancelOrder (env : CancelEnv) (orderId : Nat) :
    Except String CancelOrderResult × List Call :=
  match env.signer with
  | none => (.error "No signer connected", [])
  | some signerAddress =>
    let trace := [Call.ordersRead orderId]
    match env.orderRead with
    | none => (.error "Failed to cancel order: Order does not exist", trace)
    | some order =>
      if order.maker != signerAddress then
        (.error "Failed to cancel order: Only maker can cancel order", trace)
      else
        let gracePeriodEnd := order.timestamp + 14 * 24 * 60 * 60
        if env.now > gracePeriodEnd then
          (.error "Failed to cancel order: Grace period has expired", trace)
        else
          let trace := trace ++ [Call.submitCancel orderId]
          match env.cancelResult with
          | .error e => (.error ("Failed to cancel order: " ++ e), trace)
          | .ok receipt =>
            match receipt.logs.find? (fun l => l.name == "OrderCanceled") with
            | none =>
                (.error "Failed to cancel order: OrderCanceled event not found", trace)
            | some event =>
                (.ok { orderId := orderId
                       txHash := receipt.hash
                       cancellation := { timestamp := event.args.timestamp
                                         blockNumber := receipt.blockNumber } }, trace)

/-- The environment of a cleanupExpiredOrders run. -/
structure CleanupEnv where
  signer : Option Address
  cleanupResult : Except String Receipt
deriving Repr

/-- One cleaned order in a cleanupExpiredOrders result. -/
structure CleanedOrderInfo where
  orderId : Nat
  maker : Address
  timestamp : Nat
deriving DecidableEq, Repr

/-- One cleanup error in a cleanupExpiredOrders result. -/
structure CleanupErrorInfo where
  orderId : Nat
  reason : String
  timestamp : Nat
deriving DecidableEq, Repr

/-- One retry in a cleanupExpiredOrders result. -/
structure RetryInfo where
  oldOrderId : Nat
  newOrderId : Nat
  maker : Address
  tries : Nat
  timestamp : Nat
deriving DecidableEq, Repr

/-- One fee distribution in a cleanupExpiredOrders result. -/
structure FeeDistributionInfo where
  recipient : Address
  amount : Int
  timestamp : Nat
deriving DecidableEq, Repr

/-- The value returned by cleanupExpiredOrders. -/
structure CleanupResult where
  txHash : String
  cleanedOrders : List CleanedOrderInfo
  errors : List CleanupErrorInfo
  retries : List RetryInfo
  feesDistributed : List FeeDistributionInfo
deriving DecidableEq, Repr

/-- cleanupExpiredOrders: signer check, cleanup submission, then a scan of
the receipt logs for all records of the four event kinds. -/
def cleanupExpiredOrders (env : CleanupEnv) :
    Except String CleanupResult × List Call :=
  match env.signer with
  | none => (.error "No signer connected", [])
  | some _ =>
    let trace := [Call.submitCleanup]
    match env.cleanupResult with
    | .error e => (.error ("Failed to cleanup expired orders: " ++ e), trace)
    | .ok receipt =>
      let cleanedEvents := receipt.logs.filter (fun l => l.name == "OrderCleanedUp")
      let cleanupErrorEvents := receipt.logs.filter (fun l => l.name == "CleanupError")
      let retryEvents := receipt.logs.filter (fun l => l.name == "RetryOrder")
      let feesDistributedEvents :=
        receipt.logs.filter (fun l => l.name == "CleanupFeesDistributed")
      (.ok { txHash := receipt.hash
             cleanedOrders := cleanedEvents.map (fun e =>
               { orderId := e.args.orderId
                 maker := e.args.maker
                 timestamp := e.args.timestamp })
             errors := cleanupErrorEvents.map (fun e =>
               { orderId := e.args.orderId
                 reason := e.args.reason
                 timestamp := e.args.timestamp })
             retries := retryEvents.map (fun e =>
               { oldOrderId := e.args.oldOrderId
                 newOrderId := e.args.newOrderId
                 maker := e.args.maker
                 tries := e.args.tries
                 timestamp := e.args.timestamp })
             feesDistributed := feesDistributedEvents.map (fun e =>
               { recipient := e.args.recipient
                 amount := e.args.amount
                 timestamp := e.args.timestamp }) }, trace)

/-- A record that terminates an order when appended to the event streams:
a fill, a cancellation, a cleanup, or a retry superseding its old id. -/
inductive TerminalRecord where
  | filledRec (orderId : Nat)
  | canceledRec (orderId : Nat)
  | cleanedRec (orderId : Nat)
  | retriedRec (oldOrderId : Nat) (newOrderId : Nat)
deriving DecidableEq, Repr

/-- The identifier a terminal record terminates (the old id for a retry). -/
def TerminalRecord.targetId : TerminalRecord → Nat
  | .filledRec i => i
  | .canceledRec i => i
  | .cleanedRec i => i
  | .retriedRec i _ => i

/-- Append one terminal record to the stream it belongs to. -/
def addRecord (s : Streams) : TerminalRecord → Streams
  | .filledRec i => { s with filled := s.filled ++ [⟨i⟩] }
  | .canceledRec i => { s with canceled := s.canceled ++ [⟨i⟩] }
  | .cleanedRec i => { s with cleaned := s.cleaned ++ [⟨i⟩] }
  | .retriedRec i j => { s with retried := s.retried ++ [⟨i, j⟩] }

/-- A sample creation event used to instantiate the aggregator theorems. -/
def sampleCreatedEvent : CreatedEvent :=
  { orderId := 42
    maker := "0xMaker"
    taker := ZeroAddress
    sellToken := "0xTokenA"
    sellAmount := 100
    buyToken := "0xTokenB"
    buyAmount := 50
    timestamp := 1000
    orderCreationFee := 1 }

/-- Sample streams holding only the sample creation event. -/
def sampleStreams : Streams :=
  { created := [sampleCreatedEvent]
    filled := []
    canceled := []
    cleaned := []
    retried := [] }

/-- A createOrder environment with a signer and a successful fee read. -/
def createEnvOk : CreateEnv :=
  { signer := some "0xMaker"
    orderCreationFee := .ok 100
    approveResult := .ok ()
    createResult := .ok { hash := "0xhash", blockNumber := 1, logs := [] } }

/-- createOrder parameters whose sell and buy token coincide. -/
def sameTokenParams : OrderParams :=
  { taker := none
    sellToken := "0xTokenA"
    sellAmount := 5
    buyToken := "0xTokenA"
    buyAmount := 5 }

/-- A fillOrder environment for an existing, active, unexpired order with the
given taker restriction and the given connected signer. -/
def fillAuthEnv (takerRec signerAddr : Address) : FillEnv :=
  { signer := some signerAddr
    orderRead := some { maker := "0xMaker", taker := takerRec,
                        timestamp := 1000, isActive := true }
    now := 1001
    balance := 10
    approveResult := .ok ()
    fillResult := .ok { hash := "0xfill", blockNumber := 2, logs := [] } }

/-- Sample fillOrder parameters. -/
def fillParamsSample : FillOrderParams :=
  { orderId := 7, buyToken := "0xTokenB", buyAmount := 1 }

/-- A cancelOrder environment for an existing order with the given maker and
the given connected signer, inside the grace window. -/
def cancelAuthEnv (makerRec signerAddr : Address) : CancelEnv :=
  { signer := some signerAddr
    orderRead := some { maker := makerRec, taker := ZeroAddress,
                        timestamp := 1000, isActive := true }
    now := 1001
    cancelResult := .ok { hash := "0xcancel", blockNumber := 3, logs := [] } }

/-- Streams holding one creation event whose maker is the given address. -/
def makerOnlyStreams (maker : Address) : Streams :=
  { created := [{ orderId := 1
                  maker := maker
                  taker := ZeroAddress
                  sellToken := "0xTokenA"
                  sellAmount := 1
                  buyToken := "0xTokenB"
                  buyAmount := 1
                  timestamp := 0
                  orderCreationFee := 0 }]
    filled := []
    canceled := []
    cleaned := []
    retried := [] }

/-- A cleanup receipt holding two OrderCleanedUp records and one
CleanupError record. -/
def cleanupScenarioReceipt : Receipt :=
  { hash := "0xcleanup"
    blockNumber := 5
    logs := [ { name := "OrderCleanedUp",
                args := { orderId := 1, maker := "0xMaker", timestamp := 10 } },
              { name := "OrderCleanedUp",
                args := { orderId := 2, maker := "0xMaker", timestamp := 11 } },
              { name := "CleanupError",
                args := { orderId := 3, reason := "transfer failed",
                          timestamp := 12 } } ] }

/-- Unfolding of the activeCheck predicate into the four absence conditions
and the non-expiry bound. -/
theorem activeCheck_iff (s : Streams) (now : Nat) (e : CreatedEvent) :
    activeCheck s now e = true ↔
      (e.orderId ∉ filledIds s ∧ e.orderId ∉ canceledIds s ∧
       e.orderId ∉ cleanedIds s ∧ e.orderId ∉ retriedOldIds s ∧
       now ≤ e.timestamp + ORDER_EXPIRY) := by
  simp [activeCheck, and_assoc]

/-- Membership characterization for the orders list of getActiveOrders. -/
theorem mem_getActiveOrders (s : Streams) (now : Nat)
    (p : GetActiveOrdersParams) (o : Order) :
    o ∈ (getActiveOrders s now p).orders ↔
      ((∃ e, e ∈ s.created ∧ activeCheck s now e = true ∧ projectOrder e = o) ∧
       (∀ m ∈ p.makerAddress, toLowerCase o.maker = toLowerCase m) ∧
       (∀ t ∈ p.sellToken, toLowerCase o.sell.token = toLowerCase t) ∧
       (∀ t ∈ p.buyToken, toLowerCase o.buy.token = toLowerCase t)) := by
  obtain ⟨ma, st, bt⟩ := p
  cases ma <;> cases st <;> cases bt <;>
    simp [getActiveOrders, List.mem_filter, List.mem_map] <;> tauto

/-- C4: isOrderExpired(t, now) returns now > t + orderLifetime; it is false
at now = t, false at now = t + lifetime, and true at now = t + lifetime + 1. -/
theorem isOrderExpired_spec :
    (∀ (fetched : Option ExpiryInfo) (t now : Nat),
      isOrderExpired fetched t now = true ↔
        now > t + (getOrderExpiryInfo fetched).orderExpiry) ∧
    (∀ (fetched : Option ExpiryInfo) (t : Nat),
      isOrderExpired fetched t t = false ∧
      isOrderExpired fetched t (t + (getOrderExpiryInfo fetched).orderExpiry) = false ∧
      isOrderExpired fetched t (t + (getOrderExpiryInfo fetched).orderExpiry + 1) = true) := by
  refine ⟨fun fetched t now => by simp [isOrderExpired], fun fetched t => ?_⟩
  refine ⟨?_, ?_, ?_⟩ <;> simp [isOrderExpired]

/-- C5: isInGracePeriod(t, now) returns true exactly when now is strictly
greater than t + lifetime and at most t + lifetime + grace; at the defaults
it is false at t + lifetime, true at t + lifetime + 1, true at
t + lifetime + grace, and false at t + lifetime + grace + 1. -/
theorem isInGracePeriod_spec :
    (∀ (fetched : Option ExpiryInfo) (t now : Nat),
      isInGracePeriod fetched t now = true ↔
        (now > t + (getOrderExpiryInfo fetched).orderExpiry ∧
         now ≤ t + (getOrderExpiryInfo fetched).orderExpiry +
           (getOrderExpiryInfo fetched).gracePeriod)) ∧
    (∀ t : Nat,
      isInGracePeriod none t (t + ORDER_EXPIRY) = false ∧
      isInGracePeriod none t (t + ORDER_EXPIRY + 1) = true ∧
      isInGracePeriod none t (t + ORDER_EXPIRY + GRACE_PERIOD) = true ∧
      isInGracePeriod none t (t + ORDER_EXPIRY + GRACE_PERIOD + 1) = false) := by
  refine ⟨fun fetched t now => by simp [isInGracePeriod], fun t => ?_⟩
  refine ⟨?_, ?_, ?_, ?_⟩ <;>
    simp only [isInGracePeriod, getOrderExpiryInfo, Option.getD, ORDER_EXPIRY,
      GRACE_PERIOD, Bool.and_eq_false_iff, Bool.and_eq_true,
      decide_eq_false_iff_not, decide_eq_true_eq, Nat.not_lt, Nat.not_le] <;>
    omega

/-- C1: for every creation event in the streams, the default getActiveOrders
call includes its order exactly when the identifier is absent from the fill,
cancellation, cleanup and retry-old-id sets and now ≤ createdAt + the 7-day
order lifetime. -/
theorem getActiveOrders_mem_iff_untouched_and_unexpired
    (s : Streams) (now : Nat) (e : CreatedEvent) (he : e ∈ s.created) :
    projectOrder e ∈ (getActiveOrders s now ⟨none, none, none⟩).orders ↔
      (e.orderId ∉ filledIds s ∧ e.orderId ∉ canceledIds s ∧
       e.orderId ∉ cleanedIds s ∧ e.orderId ∉ retriedOldIds s ∧
       now ≤ e.timestamp + ORDER_EXPIRY) := by
  rw [mem_getActiveOrders]
  constructor
  · rintro ⟨⟨e2, he2, hchk, hproj⟩, -⟩
    have hid : e2.orderId = e.orderId := by
      have h := congrArg Order.orderId hproj
      simpa [projectOrder] using h
    have hts : e2.timestamp = e.timestamp := by
      have h := congrArg Order.createdAt hproj
      simpa [projectOrder] using h
    have h := (activeCheck_iff s now e2).mp hchk
    rw [hid, hts] at h
    exact h
  · intro h
    refine ⟨⟨e, he, (activeCheck_iff s now e).mpr h, rfl⟩, ?_, ?_, ?_⟩ <;> simp

/-- Witness for C1 at the sample streams. -/
theorem getActiveOrders_mem_iff_untouched_and_unexpired_witness :
    sampleCreatedEvent ∈ sampleStreams.created ∧
    (projectOrder sampleCreatedEvent ∈
        (getActiveOrders sampleStreams 1001 ⟨none, none, none⟩).orders ↔
      (sampleCreatedEvent.orderId ∉ filledIds sampleStreams ∧
       sampleCreatedEvent.orderId ∉ canceledIds sampleStreams ∧
       sampleCreatedEvent.orderId ∉ cleanedIds sampleStreams ∧
       sampleCreatedEvent.orderId ∉ retriedOldIds sampleStreams ∧
       1001 ≤ sampleCreatedEvent.timestamp + ORDER_EXPIRY)) :=
  ⟨by simp [sampleStreams],
   getActiveOrders_mem_iff_untouched_and_unexpired sampleStreams 1001
     sampleCreatedEvent (by simp [sampleStreams])⟩

/-- The creation stream is unchanged by addRecord. -/
theorem created_addRecord (s : Streams) (r : TerminalRecord) :
    (addRecord s r).created = s.created := by
  cases r <;> rfl

/-- Appending a terminal record strengthens activeCheck by exactly the
absence of the record's target id. -/
theorem activeCheck_addRecord (s : Streams) (now : Nat) (r : TerminalRecord)
    (e : CreatedEvent) :
    activeCheck (addRecord s r) now e = true ↔
      (activeCheck s now e = true ∧ e.orderId ≠ r.targetId) := by
  cases r <;>
    simp [activeCheck_iff, addRecord, filledIds, canceledIds, cleanedIds,
      retriedOldIds, TerminalRecord.targetId] <;> tauto

/-- C7: appending a Filled, Canceled, CleanedUp or Retried(old=X) record for
an identifier X can only remove X from the active set, never add anything,
for any filter and timestamp; and an identifier already in any of the four
terminal-id sets is excluded from the active set by that membership check
alone. -/
theorem getActiveOrders_terminal_record_monotone
    (s : Streams) (now : Nat) (p : GetActiveOrdersParams) (r : TerminalRecord) :
    (∀ o ∈ (getActiveOrders (addRecord s r) now p).orders,
        o ∈ (getActiveOrders s now p).orders ∧ o.orderId ≠ r.targetId) ∧
    (∀ x, (x ∈ filledIds s ∨ x ∈ canceledIds s ∨ x ∈ cleanedIds s ∨
            x ∈ retriedOldIds s) →
        ∀ o ∈ (getActiveOrders s now p).orders, o.orderId ≠ x) := by
  constructor
  · intro o ho
    rw [mem_getActiveOrders] at ho
    obtain ⟨⟨e, he, hchk, hproj⟩, hposts⟩ := ho
    rw [created_addRecord] at he
    rw [activeCheck_addRecord] at hchk
    refine ⟨(mem_getActiveOrders s now p o).mpr ⟨⟨e, he, hchk.1, hproj⟩, hposts⟩, ?_⟩
    rw [← hproj]
    simpa [projectOrder] using hchk.2
  · intro x hx o ho
    rw [mem_getActiveOrders] at ho
    obtain ⟨⟨e, he, hchk, hproj⟩, -⟩ := ho
    have h := (activeCheck_iff s now e).mp hchk
    intro hxo
    rw [← hproj] at hxo
    simp only [projectOrder] at hxo
    subst hxo
    tauto

/-- Witness for C7: the sample order survives the addition of a fill record
for an unrelated identifier and is distinct from that identifier. -/
theorem getActiveOrders_terminal_record_monotone_witness :
    projectOrder sampleCreatedEvent ∈
        (getActiveOrders sampleStreams 1001 ⟨none, none, none⟩).orders ∧
    (projectOrder sampleCreatedEvent).orderId ≠
      (TerminalRecord.filledRec 7).targetId :=
  (getActiveOrders_terminal_record_monotone sampleStreams 1001
      ⟨none, none, none⟩ (.filledRec 7)).1 (projectOrder sampleCreatedEvent)
    (by decide)

/-- C10: every order in the list returned by getActiveOrders has its isActive
flag set to true, for any streams, timestamp and filter. -/
theorem getActiveOrders_all_isActive (s : Streams) (now : Nat)
    (p : GetActiveOrdersParams) (o : Order)
    (ho : o ∈ (getActiveOrders s now p).orders) : o.isActive = true := by
  obtain ⟨⟨e, -, -, hproj⟩, -⟩ := (mem_getActiveOrders s now p o).mp ho
  rw [← hproj]
  rfl

/-- Witness for C10 at the sample streams. -/
theorem getActiveOrders_all_isActive_witness :
    (projectOrder sampleCreatedEvent).isActive = true :=
  getActiveOrders_all_isActive sampleStreams 1001 ⟨none, none, none⟩
    (projectOrder sampleCreatedEvent) (by decide)

/-- Run characterization: fillOrder on an existing, active, unexpired order
whose taker restriction does not match the connected signer stops at the
restriction check, with only the order read in the trace. -/
theorem fillOrder_taker_mismatch_run (env : FillEnv) (params : FillOrderParams)
    (a : Address) (rec : OrderRecord) (hs : env.signer = some a)
    (ho : env.orderRead = some rec) (hactive : rec.isActive = true)
    (hnotexp : env.now ≤ rec.timestamp + ORDER_EXPIRY)
    (hrestr : rec.taker ≠ ZeroAddress) (hmism : rec.taker ≠ a) :
    fillOrder env params =
      (.error "Failed to fill order: Not authorized to fill this order",
       [Call.ordersRead params.orderId]) := by
  have hexp : ¬ env.now > rec.timestamp + 7 * 24 * 60 * 60 := by
    have h := hnotexp
    simp only [ORDER_EXPIRY] at h
    omega
  simp [fillOrder, hs, ho, hactive, hexp, hrestr, hmism]

/-- Run characterization: cancelOrder rejects a caller different from the
recorded maker at the maker check, with only the order read in the trace. -/
theorem cancelOrder_maker_mismatch_run (env : CancelEnv) (orderId : Nat)
    (a : Address) (rec : OrderRecord) (hs : env.signer = some a)
    (ho : env.orderRead = some rec) (hmism : rec.maker ≠ a) :
    cancelOrder env orderId =
      (.error "Failed to cancel order: Only maker can cancel order",
       [Call.ordersRead orderId]) := by
  simp [cancelOrder, hs, ho, hmism]

/-- Run characterization: a maker-called cancelOrder past the 14-day
deadline stops at the grace check, with only the order read in the trace. -/
theorem cancelOrder_grace_expired_run (env : CancelEnv) (orderId : Nat)
    (a : Address) (rec : OrderRecord) (hs : env.signer = some a)
    (ho : env.orderRead = some rec) (hm : rec.maker = a)
    (hg : env.now > rec.timestamp + 14 * 24 * 60 * 60) :
    cancelOrder env orderId =
      (.error "Failed to cancel order: Grace period has expired",
       [Call.ordersRead orderId]) := by
  simp [cancelOrder, hs, ho, hm, hg]

/-- Run characterization: a maker-called cancelOrder inside the 14-day
deadline submits the cancel call, whatever its outcome. -/
theorem cancelOrder_inside_grace_trace (env : CancelEnv) (orderId : Nat)
    (a : Address) (rec : OrderRecord) (hs : env.signer = some a)
    (ho : env.orderRead = some rec) (hm : rec.maker = a)
    (hg : ¬ env.now > rec.timestamp + 14 * 24 * 60 * 60) :
    (cancelOrder env orderId).2 = [Call.ordersRead orderId, Call.submitCancel orderId] := by
  cases hr : env.cancelResult with
  | error e => simp [cancelOrder, hs, ho, hm, hg, hr]
  | ok receipt =>
    cases hfind : receipt.logs.find? (fun l => l.name == "OrderCanceled") <;>
      simp [cancelOrder, hs, ho, hm, hg, hr, hfind]

/-- C2: cancelOrder, called by the maker on an existing order, fails at the
grace check with the grace-period message (and without submitting the cancel
call) exactly when now exceeds creation timestamp + order lifetime + grace
period (the combined 14-day window); otherwise it proceeds to submit the
cancel call. -/
theorem cancelOrder_gracePeriodExpired_iff (env : CancelEnv) (orderId : Nat)
    (a : Address) (rec : OrderRecord) (hs : env.signer = some a)
    (ho : env.orderRead = some rec) (hm : rec.maker = a) :
    (((cancelOrder env orderId).1 =
        .error "Failed to cancel order: Grace period has expired" ∧
      Call.submitCancel orderId ∉ (cancelOrder env orderId).2) ↔
      env.now > rec.timestamp + (ORDER_EXPIRY + GRACE_PERIOD)) ∧
    (env.now ≤ rec.timestamp + (ORDER_EXPIRY + GRACE_PERIOD) →
      Call.submitCancel orderId ∈ (cancelOrder env orderId).2) := by
  have h14 : ORDER_EXPIRY + GRACE_PERIOD = 14 * 24 * 60 * 60 := by
    norm_num [ORDER_EXPIRY, GRACE_PERIOD]
  rw [h14]
  by_cases hg : env.now > rec.timestamp + 14 * 24 * 60 * 60
  · rw [cancelOrder_grace_expired_run env orderId a rec hs ho hm hg]
    exact ⟨by simp [hg], fun hle => absurd hg (by omega)⟩
  · have htr := cancelOrder_inside_grace_trace env orderId a rec hs ho hm hg
    rw [htr]
    refine ⟨⟨fun h => absurd (by simp) h.2, fun h => absurd h hg⟩, fun h => by simp⟩

/-- Witness for C2 at a concrete maker-called in-window environment. -/
theorem cancelOrder_gracePeriodExpired_iff_witness :
    ((((cancelOrder (cancelAuthEnv "0xM" "0xM") 7).1 =
        .error "Failed to cancel order: Grace period has expired" ∧
      Call.submitCancel 7 ∉ (cancelOrder (cancelAuthEnv "0xM" "0xM") 7).2) ↔
      (cancelAuthEnv "0xM" "0xM").now > 1000 + (ORDER_EXPIRY + GRACE_PERIOD)) ∧
    ((cancelAuthEnv "0xM" "0xM").now ≤ 1000 + (ORDER_EXPIRY + GRACE_PERIOD) →
      Call.submitCancel 7 ∈ (cancelOrder (cancelAuthEnv "0xM" "0xM") 7).2)) :=
  cancelOrder_gracePeriodExpired_iff (cancelAuthEnv "0xM" "0xM") 7 "0xM"
    { maker := "0xM", taker := ZeroAddress, timestamp := 1000, isActive := true }
    rfl rfl rfl

/-- C6: fillOrder, on an active, unexpired order carrying a taker
restriction that does not match the caller, fails with the not-authorized
message and issues no approval call and no fill submission. -/
theorem fillOrder_taker_restriction_notAuthorized (env : FillEnv)
    (params : FillOrderParams) (a : Address) (rec : OrderRecord)
    (hs : env.signer = some a) (ho : env.orderRead = some rec)
    (hactive : rec.isActive = true)
    (hnotexp : env.now ≤ rec.timestamp + ORDER_EXPIRY)
    (hrestr : rec.taker ≠ ZeroAddress) (hmism : rec.taker ≠ a) :
    (fillOrder env params).1 =
      .error "Failed to fill order: Not authorized to fill this order" ∧
    (∀ t amt, Call.approve t amt ∉ (fillOrder env params).2) ∧
    (∀ i, Call.submitFill i ∉ (fillOrder env params).2) := by
  rw [fillOrder_taker_mismatch_run env params a rec hs ho hactive hnotexp
    hrestr hmism]
  exact ⟨rfl, fun t amt => by simp, fun i => by simp⟩

/-- Witness for C6 at a concrete restricted order and non-designated caller. -/
theorem fillOrder_taker_restriction_notAuthorized_witness :
    (fillOrder (fillAuthEnv "0xTaker" "0xOther") fillParamsSample).1 =
      .error "Failed to fill order: Not authorized to fill this order" ∧
    (∀ t amt, Call.approve t amt ∉
      (fillOrder (fillAuthEnv "0xTaker" "0xOther") fillParamsSample).2) ∧
    (∀ i, Call.submitFill i ∉
      (fillOrder (fillAuthEnv "0xTaker" "0xOther") fillParamsSample).2) :=
  fillOrder_taker_restriction_notAuthorized (fillAuthEnv "0xTaker" "0xOther")
    fillParamsSample "0xOther"
    { maker := "0xMaker", taker := "0xTaker", timestamp := 1000, isActive := true }
    rfl rfl rfl (by decide) (by decide) (by decide)

/-- C3 as stated fails: createOrder with sellToken equal to buyToken does
fail with the invalid-input message naming the violated rule, but the
order-creation fee has already been read from the ledger at that point, so
the failure does not precede every network call. -/
theorem createOrder_feeRead_precedes_validation_counterexample :
    (createOrder createEnvOk sameTokenParams).1 =
      .error "Failed to create order: Cannot swap same token" ∧
    (createOrder createEnvOk sameTokenParams).2 = [Call.feeRead] ∧
    (createOrder createEnvOk sameTokenParams).2 ≠ ([] : List Call) :=
  ⟨rfl, rfl, by decide⟩

/-- C3 (amended): when a signer is connected and the fee read succeeds,
createOrder on parameters violating a validation rule (zero sell token, zero
buy token, equal tokens, non-positive sell or buy amount) fails with the
message of a violated rule, and the trace holds only the fee read: no
approval call and no create submission is issued.  The read-only fee query
does precede validation, so the failure is not before every network call. -/
theorem createOrder_invalidInput_before_approve_or_submit
    (env : CreateEnv) (params : OrderParams) (a : Address) (fee : Int)
    (hs : env.signer = some a) (hf : env.orderCreationFee = .ok fee)
    (hviol : params.sellToken = ZeroAddress ∨ params.buyToken = ZeroAddress ∨
      params.sellToken = params.buyToken ∨ params.sellAmount ≤ 0 ∨
      params.buyAmount ≤ 0) :
    (∃ msg, validateOrderParams params = some msg ∧
      (createOrder env params).1 =
        .error ("Failed to create order: " ++ msg)) ∧
    (createOrder env params).2 = [Call.feeRead] := by
  have hsome : (validateOrderParams params).isSome := by
    unfold validateOrderParams
    split_ifs with h1 h2 h3 h4 h5 <;> simp_all [beq_iff_eq]
  obtain ⟨msg, hmsg⟩ := Option.isSome_iff_exists.mp hsome
  refine ⟨⟨msg, hmsg, ?_⟩, ?_⟩ <;> simp [createOrder, hs, hf, hmsg]

/-- Witness for the amended C3 at the same-token parameters. -/
theorem createOrder_invalidInput_before_approve_or_submit_witness :
    (∃ msg, validateOrderParams sameTokenParams = some msg ∧
      (createOrder createEnvOk sameTokenParams).1 =
        .error ("Failed to create order: " ++ msg)) ∧
    (createOrder createEnvOk sameTokenParams).2 = [Call.feeRead] :=
  createOrder_invalidInput_before_approve_or_submit createEnvOk
    sameTokenParams "0xMaker" 100 rfl rfl (Or.inr (Or.inr (Or.inl rfl)))

/-- C8: for every confirmation receipt, cleanupExpiredOrders returns four
lists whose lengths equal the counts of the OrderCleanedUp, CleanupError,
RetryOrder and CleanupFeesDistributed records in the receipt; the concrete
receipt with two OrderCleanedUp records and one CleanupError record yields
lengths 2 and 1 with empty retries and feesDistributed. -/
theorem cleanupExpiredOrders_event_counts :
    (∀ (a : Address) (r : Receipt), ∃ res,
      (cleanupExpiredOrders { signer := some a, cleanupResult := .ok r }).1 =
        .ok res ∧
      res.cleanedOrders.length =
        r.logs.countP (fun l => l.name == "OrderCleanedUp") ∧
      res.errors.length = r.logs.countP (fun l => l.name == "CleanupError") ∧
      res.retries.length = r.logs.countP (fun l => l.name == "RetryOrder") ∧
      res.feesDistributed.length =
        r.logs.countP (fun l => l.name == "CleanupFeesDistributed")) ∧
    (∃ res,
      (cleanupExpiredOrders
          ⟨some "0xCaller", .ok cleanupScenarioReceipt⟩).1 = .ok res ∧
      res.cleanedOrders.length = 2 ∧ res.errors.length = 1 ∧
      res.retries = [] ∧ res.feesDistributed = []) := by
  constructor
  · intro a r
    refine ⟨_, rfl, ?_, ?_, ?_, ?_⟩ <;>
      simp [cleanupExpiredOrders, List.countP_eq_length_filter]
  · exact ⟨_, rfl, by decide, by decide, by decide, by decide⟩

/-- C9: the authorization checks of fillOrder and cancelOrder compare
addresses by exact case-sensitive string equality, rejecting any caller
differing from the recorded taker or maker, in particular one differing only
in letter case, while the maker filter of getActiveOrders compares
case-insensitively and keeps an order whose maker differs from the filter
argument only in case. -/
theorem authorization_case_sensitive_filters_case_insensitive :
    (∀ t a : Address, t ≠ ZeroAddress → t ≠ a →
      (fillOrder (fillAuthEnv t a) fillParamsSample).1 =
        .error "Failed to fill order: Not authorized to fill this order") ∧
    (∀ m a : Address, m ≠ a →
      (cancelOrder (cancelAuthEnv m a) 7).1 =
        .error "Failed to cancel order: Only maker can cancel order") ∧
    ("0xAB" : Address) ≠ "0xab" ∧
    (fillOrder (fillAuthEnv "0xAB" "0xab") fillParamsSample).1 =
      .error "Failed to fill order: Not authorized to fill this order" ∧
    (cancelOrder (cancelAuthEnv "0xAB" "0xab") 7).1 =
      .error "Failed to cancel order: Only maker can cancel order" ∧
    (getActiveOrders (makerOnlyStreams "0xAB") 0
        ⟨some "0xab", none, none⟩).orders.map Order.maker = ["0xAB"] := by
  have hfill : ∀ t a : Address, t ≠ ZeroAddress → t ≠ a →
      (fillOrder (fillAuthEnv t a) fillParamsSample).1 =
        .error "Failed to fill order: Not authorized to fill this order" := by
    intro t a ht hta
    have hne : (fillAuthEnv t a).now ≤ (1000 : Nat) + ORDER_EXPIRY := by
      show (1001 : Nat) ≤ 1000 + ORDER_EXPIRY
      decide
    rw [fillOrder_taker_mismatch_run (fillAuthEnv t a) fillParamsSample a
      { maker := "0xMaker", taker := t, timestamp := 1000, isActive := true }
      rfl rfl rfl hne ht hta]
  have hcancel : ∀ m a : Address, m ≠ a →
      (cancelOrder (cancelAuthEnv m a) 7).1 =
        .error "Failed to cancel order: Only maker can cancel order" := by
    intro m a hma
    rw [cancelOrder_maker_mismatch_run (cancelAuthEnv m a) 7 a
      { maker := m, taker := ZeroAddress, timestamp := 1000, isActive := true }
      rfl rfl hma]
  exact ⟨hfill, hcancel, by decide, hfill _ _ (by decide) (by decide),
    hcancel _ _ (by decide), by decide⟩

/-- Witness for C9 at a concrete case-differing pair of addresses. -/
theorem authorization_case_sensitive_filters_case_insensitive_witness :
    (fillOrder (fillAuthEnv "0xCD" "0xcd") fillParamsSample).1 =
      .error "Failed to fill order: Not authorized to fill this order" ∧
    (cancelOrder (cancelAuthEnv "0xCD" "0xcd") 7).1 =
      .error "Failed to cancel order: Only maker can cancel order" :=
  ⟨authorization_case_sensitive_filters_case_insensitive.1 "0xCD" "0xcd"
      (by decide) (by decide),
   authorization_case_sensitive_filters_case_insensitive.2.1 "0xCD" "0xcd"
      (by decide)⟩

end OTC
